import Mathlib

/-!
Shallow embedding of the MSL memory substrate (bitwizeshift/MSL), covering the
components the verification claims are about:

* `lifetime_utilities` / `uninitialized_storage` array construction with
  rollback (`src/include/msl/pointers/lifetime_utilities.hpp`,
  `src/include/msl/utilities/uninitialized_storage.hpp`);
* `cell` array variants with checked access and fixed/dynamic conversions
  (`src/include/msl/cells/cell.hpp`);
* `cell_activator` activation/deactivation (`src/include/msl/cells/cell_activator.hpp`);
* `memory_block` (`src/include/msl/blocks/memory_block.hpp`);
* `virtual_memory` and its POSIX/default backends
  (`src/src/msl/memory/virtual_memory.cpp`,
  `src/src/msl/memory/posix/virtual_memory_impl.cpp`,
  `src/src/msl/memory/default/virtual_memory_impl.cpp`).

Addresses are modelled as `Nat` (one unit per element or byte as noted at each
definition).  Element-constructor behaviour is abstracted by a function
`fails : Nat → Bool` giving, for each 0-based element index, whether the
constructor invocation at that index throws.  Observable constructor and
destructor invocations are recorded as a trace of `Event`s.  C++ exceptions
are modelled with `Except`; a computation with no normal result (a failed
`MSL_ASSERT`, or a loop that can never exit) is modelled as `Option.none`.
-/

/-- An observable object-lifetime event at a given 0-based element index:
`ctor i` is a completed constructor invocation for element `i`, `dtor i` a
destructor invocation for element `i`. -/
inductive Event where
  | ctor (i : Nat)
  | dtor (i : Nat)
deriving DecidableEq, Repr

/-- The element indices of the constructor events of a trace, in order. -/
def ctorIndices : List Event → List Nat
  | [] => []
  | Event.ctor i :: rest => i :: ctorIndices rest
  | Event.dtor _ :: rest => ctorIndices rest

/-- The element indices of the destructor events of a trace, in order. -/
def dtorIndices : List Event → List Nat
  | [] => []
  | Event.ctor _ :: rest => dtorIndices rest
  | Event.dtor i :: rest => i :: dtorIndices rest

/-- The construction loop shared by `lifetime_utilities::construct_array_at_impl`
and `uninitialized_storage::construct_array_at_impl`
(`for (; current != last; current = increment(current)) { construct_at<T>(current, ...); }`),
modelled with explicit fuel so that it is structurally recursive.  `i` is the
index of `current`, `last` the one-past-the-end index.  The result is the list
of indices constructed by the loop (in order) together with `some k` when the
constructor at index `k` threw (`none` when the loop exited normally).  The
outer `Option` is `none` when the loop cannot exit: the source loop only stops
on `current == last`, so a counter that starts past `last` walks away from the
array forever (undefined behaviour in the source).  The wrapper
`constructLoop` supplies exactly the fuel `last - i` needed for a counter with
`i ≤ last`. -/
def constructLoopF (fails : Nat → Bool) : Nat → Nat → Nat → Option (List Nat × Option Nat)
  | 0, i, last =>
      if i = last then some ([], none) else none
  | fuel + 1, i, last =>
      if i = last then some ([], none)
      else if fails i then some ([], some i)
      else (constructLoopF fails fuel (i + 1) last).map (fun r => (i :: r.1, r.2))

/-- The construction loop from index `i` up to (exclusive) `last`. -/
def constructLoop (fails : Nat → Bool) (i last : Nat) : Option (List Nat × Option Nat) :=
  constructLoopF fails (last - i) i last

/-- Common body of `lifetime_utilities::construct_array_at_impl` and
`uninitialized_storage::construct_array_at_impl` (the two headers contain the
same algorithm): construct element `0` (this happens before the `try` block,
so a throw from it propagates with no rollback), then run the loop from
index `1`; if the constructor at index `k` throws inside the loop, destroy
the constructed prefix in reverse order
(`destroy_range(std::make_reverse_iterator(current), std::make_reverse_iterator(first))`)
and re-throw.  `p` is the address of the array; on success the first element's
address `p` is returned.  The result pairs the event trace with the outcome. -/
def construct_array_seq (p : Nat) (fails : Nat → Bool) (n : Nat) :
    Option (List Event × Except Nat Nat) :=
  if fails 0 then some ([], Except.error 0)
  else
    match constructLoop fails 1 n with
    | none => none
    | some (built, none) =>
        some ((0 :: built).map Event.ctor, Except.ok p)
    | some (built, some k) =>
        some (((0 :: built).map Event.ctor) ++ ((0 :: built).reverse.map Event.dtor),
              Except.error k)

/-- `lifetime_utilities::construct_array_at_impl`: asserts `MSL_ASSERT(n != 0u)`
before constructing; the failed assertion (for `n = 0`) is modelled as `none`. -/
def lifetime_utilities.construct_array_at_impl (p : Nat) (fails : Nat → Bool) (n : Nat) :
    Option (List Event × Except Nat Nat) :=
  if n = 0 then none
  else construct_array_seq p fails n

/-- `lifetime_utilities::construct_array_at(not_null<void*>, uquantity<T>)`
(default-construct overload): forwards directly to `construct_array_at_impl`. -/
def lifetime_utilities.construct_array_at (p : Nat) (fails : Nat → Bool) (n : Nat) :
    Option (List Event × Except Nat Nat) :=
  lifetime_utilities.construct_array_at_impl p fails n

/-- `lifetime_utilities::construct_array_at(not_null<void*>, uquantity<T>, const U&)`
(copy overload): for `n == 0` it returns `static_pointer_cast<T>(p)` without
touching the storage; otherwise it forwards to `construct_array_at_impl`. -/
def lifetime_utilities.construct_array_at_copy (p : Nat) (fails : Nat → Bool) (n : Nat) :
    Option (List Event × Except Nat Nat) :=
  if n = 0 then some ([], Except.ok p)
  else lifetime_utilities.construct_array_at_impl p fails n

/-- `uninitialized_storage::construct_array_at(void*, std::size_t)`: same
algorithm, but with no zero-length assertion in front of the body. -/
def uninitialized_storage.construct_array_at (p : Nat) (fails : Nat → Bool) (n : Nat) :
    Option (List Event × Except Nat Nat) :=
  construct_array_seq p fails n

/-- `uninitialized_storage::destroy_array_at(T*, std::size_t)`: destroys
`[first, first + n)` in forward order via `destroy_range`. -/
def uninitialized_storage.destroy_array_at (n : Nat) : List Event :=
  (List.range n).map Event.dtor

example : lifetime_utilities.construct_array_at 7 (fun i => i == 2) 5 =
    some ([Event.ctor 0, Event.ctor 1, Event.dtor 1, Event.dtor 0], Except.error 2) := rfl

example : lifetime_utilities.construct_array_at 7 (fun _ => false) 3 =
    some ([Event.ctor 0, Event.ctor 1, Event.ctor 2], Except.ok 7) := rfl

example : lifetime_utilities.construct_array_at_copy 7 (fun _ => false) 0 =
    some ([], Except.ok 7) := rfl

example : lifetime_utilities.construct_array_at 7 (fun _ => false) 0 = none := rfl

example : uninitialized_storage.construct_array_at 7 (fun _ => false) 0 = none := rfl

/-- When every constructor invocation in `[i, i + fuel)` succeeds, the loop
constructs exactly the indices `i, i+1, …, i+fuel-1` and exits normally. -/
lemma constructLoopF_success (fails : Nat → Bool) :
    ∀ (fuel i : Nat), (∀ j, i ≤ j → j < i + fuel → fails j = false) →
      constructLoopF fails fuel i (i + fuel) = some (List.range' i fuel, none) := by
  intro fuel
  induction fuel with
  | zero =>
      intro i _
      simp [constructLoopF]
  | succ fuel ih =>
      intro i h
      have hne : i ≠ i + (fuel + 1) := by omega
      have hfi : fails i = false := h i (Nat.le_refl i) (by omega)
      have hrec := ih (i + 1) (by intro j h1 h2; exact h j (by omega) (by omega))
      have harg : i + 1 + fuel = i + (fuel + 1) := by omega
      rw [harg] at hrec
      simp [constructLoopF, hne, hfi, hrec, List.range'_succ]

/-- When the constructor at index `k` (with `i ≤ k < i + fuel`) throws and
every earlier invocation succeeds, the loop constructs exactly
`i, i+1, …, k-1` and reports the failure at `k`. -/
lemma constructLoopF_fail (fails : Nat → Bool) (k : Nat) (hk : fails k = true) :
    ∀ (fuel i : Nat), i ≤ k → k < i + fuel →
      (∀ j, i ≤ j → j < k → fails j = false) →
      constructLoopF fails fuel i (i + fuel) = some (List.range' i (k - i), some k) := by
  intro fuel
  induction fuel with
  | zero =>
      intro i h1 h2
      omega
  | succ fuel ih =>
      intro i h1 h2 h3
      have hne : i ≠ i + (fuel + 1) := by omega
      by_cases hik : i = k
      · subst hik
        simp [constructLoopF, hne, hk]
      · have hlt : i < k := by omega
        have hfi : fails i = false := h3 i (Nat.le_refl i) hlt
        have hrec := ih (i + 1) (by omega) (by omega)
          (by intro j hj1 hj2; exact h3 j (by omega) hj2)
        have harg : i + 1 + fuel = i + (fuel + 1) := by omega
        rw [harg] at hrec
        have hki : k - i = (k - (i + 1)) + 1 := by omega
        simp [constructLoopF, hne, hfi, hrec, hki, List.range'_succ]

lemma ctorIndices_append (a b : List Event) :
    ctorIndices (a ++ b) = ctorIndices a ++ ctorIndices b := by
  induction a with
  | nil => rfl
  | cons e rest ih => cases e <;> simp [ctorIndices, ih]

lemma dtorIndices_append (a b : List Event) :
    dtorIndices (a ++ b) = dtorIndices a ++ dtorIndices b := by
  induction a with
  | nil => rfl
  | cons e rest ih => cases e <;> simp [dtorIndices, ih]

lemma ctorIndices_map_ctor (l : List Nat) : ctorIndices (l.map Event.ctor) = l := by
  induction l with
  | nil => rfl
  | cons x rest ih => simp [ctorIndices, ih]

lemma ctorIndices_map_dtor (l : List Nat) : ctorIndices (l.map Event.dtor) = [] := by
  induction l with
  | nil => rfl
  | cons x rest ih => simp [ctorIndices, ih]

lemma dtorIndices_map_ctor (l : List Nat) : dtorIndices (l.map Event.ctor) = [] := by
  induction l with
  | nil => rfl
  | cons x rest ih => simp [dtorIndices, ih]

lemma dtorIndices_map_dtor (l : List Nat) : dtorIndices (l.map Event.dtor) = l := by
  induction l with
  | nil => rfl
  | cons x rest ih => simp [dtorIndices, ih]

/-- For `k ≥ 1`, the constructed prefix `0 :: [1, …, k-1]` is `List.range k`. -/
lemma zero_cons_range' (k : Nat) (h : 1 ≤ k) :
    (0 :: List.range' 1 (k - 1)) = List.range k := by
  rw [List.range_eq_range']
  cases k with
  | zero => omega
  | succ m => simp [List.range'_succ]

/-- The normal-result form of `construct_array_at_impl` when the first failing
constructor is at index `k < n`: the trace constructs `0, …, k-1` and then
destroys `k-1, …, 0`, and the failure is re-signalled as `Except.error k`. -/
lemma construct_array_at_impl_fail_trace (p n k : Nat) (fails : Nat → Bool)
    (hk : k < n) (hfail : fails k = true) (hbefore : ∀ i, i < k → fails i = false) :
    lifetime_utilities.construct_array_at_impl p fails n =
      some ((List.range k).map Event.ctor ++ (List.range k).reverse.map Event.dtor,
            Except.error k) := by
  have hn : n ≠ 0 := by omega
  unfold lifetime_utilities.construct_array_at_impl construct_array_seq constructLoop
  rcases Nat.eq_zero_or_pos k with hk0 | hkpos
  · subst hk0
    simp [hfail, hn]
  · have hf0 : fails 0 = false := hbefore 0 hkpos
    have harg : 1 + (n - 1) = n := by omega
    have hloop := constructLoopF_fail fails k hfail (n - 1) 1 hkpos (by omega)
      (by intro j hj1 hj2; exact hbefore j hj2)
    rw [harg] at hloop
    rw [if_neg hn, if_neg (by simp [hf0]), hloop]
    simp [zero_cons_range' k hkpos]

/-- C1: constructing an array of `n` elements via
`lifetime_utilities::construct_array_at` where the element constructor at
0-based index `k` fails (and all earlier ones succeed) performs exactly `k`
destructions at indices `k-1, …, 0` in strictly decreasing order, constructs
no element at an index `≥ k`, and re-signals the original failure (`error k`)
to the caller. -/
theorem construct_array_at_rollback (p n k : Nat) (fails : Nat → Bool)
    (hk : k < n) (hfail : fails k = true) (hbefore : ∀ i, i < k → fails i = false) :
    ∃ tr, lifetime_utilities.construct_array_at p fails n = some (tr, Except.error k)
      ∧ dtorIndices tr = (List.range k).reverse
      ∧ (dtorIndices tr).length = k
      ∧ (∀ i, i ∈ ctorIndices tr → i < k) := by
  refine ⟨(List.range k).map Event.ctor ++ (List.range k).reverse.map Event.dtor, ?_, ?_, ?_, ?_⟩
  · exact construct_array_at_impl_fail_trace p n k fails hk hfail hbefore
  · rw [dtorIndices_append, dtorIndices_map_ctor, dtorIndices_map_dtor]
    rfl
  · rw [dtorIndices_append, dtorIndices_map_ctor, dtorIndices_map_dtor]
    simp
  · intro i hi
    rw [ctorIndices_append, ctorIndices_map_ctor, ctorIndices_map_dtor] at hi
    simpa using hi

/-- Witness for `construct_array_at_rollback` at `p = 7`, `n = 5`, `k = 2`,
with the constructor failing exactly at index `2`. -/
theorem construct_array_at_rollback_witness :
    (2 < 5 ∧ (fun i => i == 2) 2 = true ∧ (∀ i, i < 2 → (fun i => i == 2) i = false))
    ∧ ∃ tr, lifetime_utilities.construct_array_at 7 (fun i => i == 2) 5 =
          some (tr, Except.error 2)
        ∧ dtorIndices tr = (List.range 2).reverse
        ∧ (dtorIndices tr).length = 2
        ∧ (∀ i, i ∈ ctorIndices tr → i < 2) :=
  ⟨⟨by decide, by decide, by decide⟩,
    construct_array_at_rollback 7 5 2 (fun i => i == 2) (by decide) (by decide) (by decide)⟩

/-- C10: the copy overload of `construct_array_at` accepts a zero length,
returning `p` (cast to a `T` pointer) with no constructor invocation at all,
while the default-construct overload forwards a zero length straight into
`construct_array_at_impl`, whose `MSL_ASSERT(n != 0u)` it then violates
(modelled as `none`). -/
theorem construct_array_at_zero_length (p : Nat) (fails : Nat → Bool) :
    lifetime_utilities.construct_array_at_copy p fails 0 = some ([], Except.ok p)
    ∧ lifetime_utilities.construct_array_at p fails 0 = none :=
  ⟨rfl, rfl⟩

/-- The dynamically-sized array cell `cell<T[], Align>`: a data address
(`m_data`, in element-sized units) and a run-time length (`m_length`). -/
structure cellDynArray where
  m_data : Nat
  m_length : Nat
deriving DecidableEq, Repr

/-- The fixed-size array cell `cell<T[N], Align>`: only the data address is
stored, the length `N` is part of the type. -/
structure cellFixedArray (N : Nat) where
  m_data : Nat
deriving DecidableEq, Repr

/-- `cell<T[], Align>::size()` returns the stored run-time length. -/
def cellDynArray.size (c : cellDynArray) : Nat := c.m_length

/-- `cell<T[], Align>::at(std::size_t)` as written in the source:
`if (n < size()) { detail::throw_cell_out_of_range(n, size().count()); }`
then `return traversal_utilities::access_at_offset(data(), n)`.  The thrown
`std::out_of_range` carries the index and length; the returned value is the
address of element `n`. -/
def cellDynArray.atIndex (c : cellDynArray) (n : Nat) : Except (Nat × Nat) Nat :=
  if n < c.size then Except.error (n, c.size)
  else Except.ok (c.m_data + n)

/-- `cell<T[N], Align>::size()` returns `N`. -/
def cellFixedArray.size {N : Nat} (_ : cellFixedArray N) : Nat := N

/-- `cell<T[N], Align>::at(std::size_t)` as written in the source:
`if (n < size()) { detail::throw_cell_out_of_range(n, N); }` then the
unchecked access. -/
def cellFixedArray.atIndex {N : Nat} (c : cellFixedArray N) (n : Nat) :
    Except (Nat × Nat) Nat :=
  if n < c.size then Except.error (n, N)
  else Except.ok (c.m_data + n)

/-- C2 (code behaviour at the failing input): the bounds check in both `at`
overloads is inverted.  On a four-element cell, the in-bounds access `at(1)`
throws `std::out_of_range` and the out-of-bounds access `at(7)` is let
through to the unchecked element access, for the dynamic-length and the
fixed-length cell alike. -/
theorem cell_at_bounds_check_inverted :
    cellDynArray.atIndex ⟨0, 4⟩ 1 = Except.error (1, 4)
    ∧ cellDynArray.atIndex ⟨0, 4⟩ 7 = Except.ok 7
    ∧ (⟨0⟩ : cellFixedArray 4).atIndex 1 = Except.error (1, 4)
    ∧ (⟨0⟩ : cellFixedArray 4).atIndex 7 = Except.ok 7 :=
  ⟨rfl, rfl, rfl, rfl⟩

/-- `cell<T[], Align>::cell(const cell<U[N], UAlign>&)`: the implicit
fixed-length → dynamic-length conversion copies the address and stores `N` as
the run-time length. -/
def cellFixedArray.toDyn {N : Nat} (c : cellFixedArray N) : cellDynArray :=
  ⟨c.m_data, N⟩

/-- `cell<T[N], Align>::cell(const cell<U[], UAlign>&)`: the explicit
dynamic-length → fixed-length conversion asserts
`MSL_ASSERT(other.size() == N)` and copies the address; the violated
precondition (mismatched length) is modelled as `none`. -/
def cellDynArray.toFixed (N : Nat) (c : cellDynArray) : Option (cellFixedArray N) :=
  if c.m_length = N then some ⟨c.m_data⟩ else none

/-- C8: converting a fixed-length cell to a dynamic-length cell and back
round-trips to the same address and length (the intermediate dynamic cell has
length `N`, so the conversion back succeeds), while converting a dynamic cell
whose run-time length differs from `N` is a precondition violation. -/
theorem cell_fixed_dyn_roundtrip (N a : Nat) (d : cellDynArray) (h : d.m_length ≠ N) :
    cellDynArray.toFixed N (cellFixedArray.toDyn (⟨a⟩ : cellFixedArray N)) = some ⟨a⟩
    ∧ (cellFixedArray.toDyn (⟨a⟩ : cellFixedArray N)).m_data = a
    ∧ (cellFixedArray.toDyn (⟨a⟩ : cellFixedArray N)).m_length = N
    ∧ cellDynArray.toFixed N d = none := by
  refine ⟨?_, rfl, rfl, ?_⟩
  · simp [cellDynArray.toFixed, cellFixedArray.toDyn]
  · simp [cellDynArray.toFixed, h]

/-- Witness for `cell_fixed_dyn_roundtrip` at `N = 3`, `a = 7` and the
length-5 dynamic cell `⟨7, 5⟩`. -/
theorem cell_fixed_dyn_roundtrip_witness :
    ((⟨7, 5⟩ : cellDynArray).m_length ≠ 3)
    ∧ (cellDynArray.toFixed 3 (cellFixedArray.toDyn (⟨7⟩ : cellFixedArray 3)) = some ⟨7⟩
      ∧ (cellFixedArray.toDyn (⟨7⟩ : cellFixedArray 3)).m_data = 7
      ∧ (cellFixedArray.toDyn (⟨7⟩ : cellFixedArray 3)).m_length = 3
      ∧ cellDynArray.toFixed 3 ⟨7, 5⟩ = none) :=
  ⟨by decide, cell_fixed_dyn_roundtrip 3 7 ⟨7, 5⟩ (by decide)⟩

/-- `active_cell<T[], Align>`: same shape as the dynamic-length cell, but
denoting storage holding live objects. -/
structure active_cellArray where
  m_data : Nat
  m_length : Nat
deriving DecidableEq, Repr

/-- `cell_activator::activate_array(cell<T[], Align>&&)`: delegates to
`uninitialized_storage::construct_array_at(c.data(), c.length().count())` and,
on success, returns an `active_cell` over the returned address and the cell's
length (the consumed input cell is reset to null).  A constructor failure
propagates after the utilities' rollback; a `none` result means the
construction never produced a result at all. -/
def cell_activator.activate_array (fails : Nat → Bool) (c : cellDynArray) :
    Option (List Event × Except Nat active_cellArray) :=
  match uninitialized_storage.construct_array_at c.m_data fails c.m_length with
  | none => none
  | some (tr, Except.error k) => some (tr, Except.error k)
  | some (tr, Except.ok p) => some (tr, Except.ok ⟨p, c.m_length⟩)

/-- `cell_activator::deactivate(active_cell<T[], Align>)`: destroys the
elements via `uninitialized_storage::destroy_array_at(c.data(), c.length().count())`
(forward order) and returns a `cell` over the same address and length. -/
def cell_activator.deactivate (a : active_cellArray) : List Event × cellDynArray :=
  (uninitialized_storage.destroy_array_at a.m_length, ⟨a.m_data, a.m_length⟩)

/-- C3 (code behaviour at the failing input): activating a zero-length
dynamic array cell never yields an `active_cell` at all.
`uninitialized_storage::construct_array_at` unconditionally constructs a first
element even when `n == 0`, and its loop counter then starts one past the
sentinel `last`, so the loop `current != last` never exits. -/
theorem activate_array_zero_length_no_result :
    cell_activator.activate_array (fun _ => false) ⟨100, 0⟩ = none := rfl

/-- The success form of the shared construction body when every constructor
succeeds and `n = m + 1 ≥ 1`: all indices `0, …, n-1` are constructed in
order and the first element's address is returned. -/
lemma construct_array_seq_success (p m : Nat) (fails : Nat → Bool)
    (hall : ∀ j, j < m + 1 → fails j = false) :
    construct_array_seq p fails (m + 1) =
      some ((List.range (m + 1)).map Event.ctor, Except.ok p) := by
  have hf0 : fails 0 = false := hall 0 (by omega)
  have harg : 1 + m = m + 1 := by omega
  have hloop := constructLoopF_success fails m 1
    (by intro j hj1 hj2; exact hall j (by omega))
  rw [harg] at hloop
  unfold construct_array_seq constructLoop
  rw [if_neg (by simp [hf0])]
  have hfuel : m + 1 - 1 = m := by omega
  rw [hfuel, hloop]
  have hr : (0 :: List.range' 1 m) = List.range (m + 1) :=
    zero_cons_range' (m + 1) (by omega)
  simp [hr]

/-- Activation followed by deactivation round-trips for cells of nonzero
length: when every element constructor succeeds, `activate_array` constructs
each of the `n` element indices exactly once (the trace is
`ctor 0, …, ctor (n-1)`), yields an `active_cell` with the cell's address and
length, and `deactivate` destroys each element index exactly once (the trace
is `dtor 0, …, dtor (n-1)`) and returns a cell with the same address and
length as the original. -/
theorem activate_then_deactivate_roundtrip (a n : Nat) :
    cell_activator.activate_array (fun _ => false) ⟨a, n + 1⟩ =
      some ((List.range (n + 1)).map Event.ctor, Except.ok ⟨a, n + 1⟩)
    ∧ cell_activator.deactivate ⟨a, n + 1⟩ =
      ((List.range (n + 1)).map Event.dtor, ⟨a, n + 1⟩) := by
  constructor
  · unfold cell_activator.activate_array uninitialized_storage.construct_array_at
    rw [construct_array_seq_success a n (fun _ => false) (by intro j _; rfl)]
  · rfl

/-- `memory_block`: a raw `{begin, end}` byte-address pair. -/
structure memory_block where
  m_begin : Nat
  m_end : Nat
deriving DecidableEq, Repr

/-- `memory_block::empty()`: `m_begin == m_end`. -/
def memory_block.empty (b : memory_block) : Bool :=
  b.m_begin == b.m_end

/-- `memory_block::size()`: `m_end - m_begin` bytes. -/
def memory_block.size (b : memory_block) : Nat :=
  b.m_end - b.m_begin

/-- `memory_block::contains(not_null<const std::byte*>)` as written in the
source: `compare(m_begin, p) && compare(p, m_end)` where `compare` is
`std::less_equal<const std::byte*>{}` — both bounds inclusive. -/
def memory_block.contains (b : memory_block) (p : Nat) : Bool :=
  decide (b.m_begin ≤ p) && decide (p ≤ b.m_end)

/-- C6 (code behaviour at the failing input): a null block (`begin == end`)
reports that it contains its own boundary address, although it is empty; in
general `contains` also accepts `p == end`, one past the last byte of the
block. -/
theorem memory_block_contains_end :
    memory_block.contains ⟨100, 100⟩ 100 = true
    ∧ memory_block.empty ⟨100, 100⟩ = true
    ∧ memory_block.contains ⟨100, 108⟩ 108 = true :=
  ⟨rfl, rfl, rfl⟩

/-- POSIX `msl::virtual_memory_reserve(std::size_t)`: calls `::mmap` and
throws a `std::system_error` wrapping `errno` when the result is
`MAP_FAILED`.  The OS outcome is passed in as `mmapResult` (`none` =
`MAP_FAILED`) together with the `errno` value `e`. -/
def virtual_memory_reserve_posix (mmapResult : Option Nat) (e : Nat) : Except Nat Nat :=
  match mmapResult with
  | none => Except.error e
  | some p => Except.ok p

/-- POSIX `msl::virtual_memory_commit(not_null<std::byte*>, std::size_t)`:
calls `::mprotect` (which returns `0` on success and `-1` on failure) and
throws a `std::system_error` wrapping `errno` when `result != 0`; on success
it returns the committed address. -/
def virtual_memory_commit_posix (memory : Nat) (mprotectResult : Int) (e : Nat) :
    Except Nat Nat :=
  if mprotectResult != 0 then Except.error e
  else Except.ok memory

/-- POSIX `msl::virtual_memory_decommit(not_null<std::byte*>, std::size_t)` as
written in the source: after the advisory `madvise`, it calls `::mprotect`
(`0` on success, `-1` on failure) and throws when `result == 0`. -/
def virtual_memory_decommit_posix (mprotectResult : Int) (e : Nat) : Except Nat Unit :=
  if mprotectResult == 0 then Except.error e
  else Except.ok ()

/-- POSIX `msl::virtual_memory_release(not_null<std::byte*>, std::size_t)` as
written in the source: calls `::munmap` (`0` on success, `-1` on failure) and
throws when `result == 0`. -/
def virtual_memory_release_posix (munmapResult : Int) (e : Nat) : Except Nat Unit :=
  if munmapResult == 0 then Except.error e
  else Except.ok ()

/-- C4 (code behaviour at the failing input): the POSIX backend's error checks
for decommit and release are inverted.  `mprotect`/`munmap` return `0` on
success, yet `virtual_memory_decommit` and `virtual_memory_release` throw the
wrapped system error exactly when the OS call succeeded (`result == 0`) and
silently return when it failed (`result == -1`).  Reserve and commit have the
correct polarity. -/
theorem posix_decommit_release_check_inverted :
    virtual_memory_decommit_posix 0 12 = Except.error 12
    ∧ virtual_memory_decommit_posix (-1) 12 = Except.ok ()
    ∧ virtual_memory_release_posix 0 12 = Except.error 12
    ∧ virtual_memory_release_posix (-1) 12 = Except.ok ()
    ∧ virtual_memory_commit_posix 500 (-1) 12 = Except.error 12
    ∧ virtual_memory_commit_posix 500 0 12 = Except.ok 500
    ∧ virtual_memory_reserve_posix none 12 = Except.error 12
    ∧ virtual_memory_reserve_posix (some 500) 12 = Except.ok 500 :=
  ⟨rfl, rfl, rfl, rfl, rfl, rfl, rfl, rfl⟩

/-- An OS-level release of a reservation of `pages` pages at address `addr`
(what `virtual_memory_release` asks of the OS). -/
inductive OsEvent where
  | osRelease (addr : Nat) (pages : Nat)
deriving DecidableEq, Repr

/-- `msl::virtual_memory`: a data pointer (`none` models `nullptr`) and the
page count. -/
structure virtual_memory where
  m_data : Option Nat
  m_pages : Nat
deriving DecidableEq, Repr

/-- `virtual_memory::pages()`. -/
def virtual_memory.pages (v : virtual_memory) : Nat := v.m_pages

/-- `virtual_memory::data()`. -/
def virtual_memory.data (v : virtual_memory) : Option Nat := v.m_data

/-- `virtual_memory::size_in_bytes()`: `page_size() * pages().count()`; the
process page size is passed in as `pageSize`. -/
def virtual_memory.size_in_bytes (v : virtual_memory) (pageSize : Nat) : Nat :=
  pageSize * v.m_pages

/-- `virtual_memory::reserve(uquantity<page>)`: calls the backend reserve and
wraps the returned address with the page count. -/
def virtual_memory.reserve (mmapResult : Option Nat) (e : Nat) (pages : Nat) :
    Except Nat virtual_memory :=
  (virtual_memory_reserve_posix mmapResult e).map (fun p => ⟨some p, pages⟩)

/-- `virtual_memory::~virtual_memory()`: calls
`virtual_memory_release(m_data, m_pages.count())` when `m_data != nullptr`,
and does nothing otherwise.  The OS calls it performs are returned. -/
def virtual_memory.destructor (v : virtual_memory) : List OsEvent :=
  match v.m_data with
  | some p => [OsEvent.osRelease p v.m_pages]
  | none => []

/-- `virtual_memory::virtual_memory(virtual_memory&&)`: exchanges the source's
data pointer with `nullptr` and copies the page count.  Returns
`(constructed, moved-from source)`. -/
def virtual_memory.move_construct (v : virtual_memory) :
    virtual_memory × virtual_memory :=
  (⟨v.m_data, v.m_pages⟩, ⟨none, v.m_pages⟩)

/-- `virtual_memory::release()`: `std::exchange(m_data, nullptr)` — it returns
the raw pointer and nulls the handle, performing no OS call at all (the
returned event list is always empty). -/
def virtual_memory.release (v : virtual_memory) :
    (Option Nat × virtual_memory) × List OsEvent :=
  ((v.m_data, ⟨none, v.m_pages⟩), [])

/-- C5 counterexample: `release()` does not return the reservation to the OS.
Releasing a live 4-page region at address 100 performs zero OS calls, and the
subsequent destructor (the handle now being null) performs zero OS calls too,
so the reservation is returned to the OS zero times, not exactly once. -/
theorem vm_release_performs_no_os_call :
    (virtual_memory.release ⟨some 100, 4⟩).2 = []
    ∧ virtual_memory.destructor (virtual_memory.release ⟨some 100, 4⟩).1.2 = [] :=
  ⟨rfl, rfl⟩

/-- C5 as amended: destroying a region whose data pointer is non-null performs
the OS release exactly once; destroying a moved-from region performs no OS
call; `release()` itself performs no OS call, it only relinquishes ownership
(nulling the handle), after which destruction performs no OS call either. -/
theorem vm_destructor_releases_once (p n : Nat) (v : virtual_memory) :
    virtual_memory.destructor ⟨some p, n⟩ = [OsEvent.osRelease p n]
    ∧ virtual_memory.destructor ⟨none, n⟩ = []
    ∧ virtual_memory.destructor (virtual_memory.move_construct v).2 = []
    ∧ virtual_memory.destructor (virtual_memory.move_construct ⟨some p, n⟩).1 =
        [OsEvent.osRelease p n]
    ∧ (virtual_memory.release v).2 = []
    ∧ virtual_memory.destructor (virtual_memory.release v).1.2 = [] :=
  ⟨rfl, rfl, rfl, rfl, rfl, rfl⟩

/-- `virtual_memory::commit(std::size_t)`: computes
`p = m_data + n * page_size()`, calls the backend commit on one page and
wraps the result as `page::from_pointer_and_length(result, page_size())`,
i.e. the block `[p, p + page_size())`.  `osResult` is the `mprotect` return
value; a null handle (no address to offset from) gives no result. -/
def virtual_memory.commit (v : virtual_memory) (pageSize n : Nat) (osResult : Int)
    (e : Nat) : Option (Except Nat memory_block) :=
  v.m_data.map (fun addr =>
    match virtual_memory_commit_posix (addr + n * pageSize) osResult e with
    | Except.error c => Except.error c
    | Except.ok p => Except.ok ⟨p, p + pageSize⟩)

/-- C7: reserving a region of 4 pages (successful `mmap` at `addr`) yields
`pages() == 4` and `size_in_bytes() == 4 * page_size()`, and committing page
`i < pages()` of any reserved region (successful `mprotect`, OS result `0`)
yields the block starting at `data() + i * page_size()` whose size is
`page_size()`. -/
theorem vm_reserve_commit_geometry (addr pageSize n i e : Nat) (hi : i < n) :
    (∃ v4, virtual_memory.reserve (some addr) e 4 = Except.ok v4
      ∧ v4.pages = 4
      ∧ v4.size_in_bytes pageSize = 4 * pageSize)
    ∧ (∃ v, virtual_memory.reserve (some addr) e n = Except.ok v
      ∧ v.data = some addr
      ∧ i < v.pages
      ∧ v.commit pageSize i 0 e =
          some (Except.ok ⟨addr + i * pageSize, addr + i * pageSize + pageSize⟩)
      ∧ memory_block.size ⟨addr + i * pageSize, addr + i * pageSize + pageSize⟩ =
          pageSize) := by
  constructor
  · refine ⟨⟨some addr, 4⟩, rfl, rfl, ?_⟩
    simp [virtual_memory.size_in_bytes, Nat.mul_comm]
  · refine ⟨⟨some addr, n⟩, rfl, rfl, hi, rfl, ?_⟩
    simp [memory_block.size]

/-- Witness for `vm_reserve_commit_geometry` at address 4096, page size 16,
a 4-page region and page index 2. -/
theorem vm_reserve_commit_geometry_witness :
    2 < 4
    ∧ ((∃ v4, virtual_memory.reserve (some 4096) 0 4 = Except.ok v4
        ∧ v4.pages = 4
        ∧ v4.size_in_bytes 16 = 4 * 16)
      ∧ (∃ v, virtual_memory.reserve (some 4096) 0 4 = Except.ok v
        ∧ v.data = some 4096
        ∧ 2 < v.pages
        ∧ v.commit 16 2 0 0 = some (Except.ok ⟨4096 + 2 * 16, 4096 + 2 * 16 + 16⟩)
        ∧ memory_block.size ⟨4096 + 2 * 16, 4096 + 2 * 16 + 16⟩ = 16)) :=
  ⟨by decide, vm_reserve_commit_geometry 4096 16 4 2 0 (by decide)⟩

/-- The error taxonomy of the virtual-memory backends: a "not implemented"
failure (`msl::not_implemented`, carrying its message) is a distinct kind from
a wrapped OS error (`std::system_error`, carrying the platform error code). -/
inductive VmError where
  | not_implemented (message : String)
  | system_error (code : Nat)
deriving DecidableEq, Repr

/-- Default-backend `msl::virtual_memory_page_size()`: `return bytes::zero();`
— the function is `noexcept` and returns zero bytes. -/
def virtual_memory_page_size_default : Nat := 0

/-- Default-backend `msl::virtual_memory_reserve`: throws `not_implemented`. -/
def virtual_memory_reserve_default (_n : Nat) : Except VmError Nat :=
  Except.error (VmError.not_implemented
    "virtual_memory_reserve not implemented for target system")

/-- Default-backend `msl::virtual_memory_commit`: throws `not_implemented`. -/
def virtual_memory_commit_default (_memory _n : Nat) : Except VmError Nat :=
  Except.error (VmError.not_implemented
    "virtual_memory_commit not implemented for target system")

/-- Default-backend `msl::virtual_memory_decommit`: throws `not_implemented`. -/
def virtual_memory_decommit_default (_memory _n : Nat) : Except VmError Unit :=
  Except.error (VmError.not_implemented
    "virtual_memory_decommit not implemented for target system")

/-- Default-backend `msl::virtual_memory_release`: throws `not_implemented`. -/
def virtual_memory_release_default (_memory _n : Nat) : Except VmError Unit :=
  Except.error (VmError.not_implemented
    "virtual_memory_release not implemented for target system")

/-- C9 counterexample: the page size query of the default backend does not
fail at all — it returns the dummy value zero bytes. -/
theorem default_page_size_returns_dummy :
    virtual_memory_page_size_default = 0 := rfl

/-- C9 as amended: on an unsupported target, reserve, commit, decommit and
release each fail with an explicit "not implemented" error that is distinct
from any wrapped OS error, and never silently no-op; the page size query,
however, is `noexcept` and returns zero bytes instead of failing. -/
theorem default_backend_fails_not_implemented (memory n : Nat) :
    virtual_memory_reserve_default n =
      Except.error (VmError.not_implemented
        "virtual_memory_reserve not implemented for target system")
    ∧ virtual_memory_commit_default memory n =
      Except.error (VmError.not_implemented
        "virtual_memory_commit not implemented for target system")
    ∧ virtual_memory_decommit_default memory n =
      Except.error (VmError.not_implemented
        "virtual_memory_decommit not implemented for target system")
    ∧ virtual_memory_release_default memory n =
      Except.error (VmError.not_implemented
        "virtual_memory_release not implemented for target system")
    ∧ (∀ msg code, VmError.not_implemented msg ≠ VmError.system_error code)
    ∧ virtual_memory_page_size_default = 0 := by
  refine ⟨rfl, rfl, rfl, rfl, ?_, rfl⟩
  intro msg code h
  cases h
